import Mathlib

/-!
Shallow embedding of `src/class_metrics_v6.py`, a per-class software-quality
metric tool (LCOM, TCC, CBO, git-history statistics, fan-in/fan-out), together
with theorems settling the frozen claims about it.

External collaborators (the filesystem, `ast.parse`, `git log -L`, `pyreverse`,
the `.dot` parser) are modelled as inputs: a parse result is an
`Option (List PyStmt)`, a git invocation result is an `Except Unit String`
(`Except.error` standing for `subprocess.CalledProcessError`, i.e. a non-zero
exit), and the dependency graph is a `DotGraph` value.  Everything the Python
code computes from those inputs is translated function by function.
-/

/-- Fragment of the Python expression AST that the tool inspects:
`ast.Name`, `ast.Attribute` (`value.attr`), `ast.Call`, plus an opaque
constant standing for literals. -/
inductive PyExpr where
  | name (id : String)
  | attribute (value : PyExpr) (attr : String)
  | call (func : PyExpr) (args : List PyExpr)
  | constant
deriving Repr

/-- Fragment of the Python statement AST: `ast.FunctionDef`, `ast.ClassDef`,
single-target `ast.Assign`, `ast.Expr`, `ast.Return`, `ast.Pass`. -/
inductive PyStmt where
  | functionDef (nm : String) (body : List PyStmt)
  | classDef (nm : String) (body : List PyStmt)
  | assign (target : PyExpr) (value : PyExpr)
  | exprStmt (e : PyExpr)
  | ret (e : PyExpr)
  | passStmt
deriving Repr

/-! ### Attribute-access extraction (lines 72-77 of the source)

`ast.walk(method)` visits every node below the method; the code collects
`subnode.attr` whenever `subnode` is an `Attribute` whose `value` is
`Name("self")`.  Order of collection is irrelevant (a Python `set` is built),
so we collect into a list and use it only through membership. -/

mutual
def exprSelfAttrs : PyExpr → List String
  | .name _ => []
  | .attribute v a =>
      (match v with
       | .name i => if i = "self" then [a] else []
       | _ => []) ++ exprSelfAttrs v
  | .call f args => exprSelfAttrs f ++ exprsSelfAttrs args
  | .constant => []

def exprsSelfAttrs : List PyExpr → List String
  | [] => []
  | e :: es => exprSelfAttrs e ++ exprsSelfAttrs es
end

mutual
def stmtSelfAttrs : PyStmt → List String
  | .functionDef _ b => stmtsSelfAttrs b
  | .classDef _ b => stmtsSelfAttrs b
  | .assign t v => exprSelfAttrs t ++ exprSelfAttrs v
  | .exprStmt e => exprSelfAttrs e
  | .ret e => exprSelfAttrs e
  | .passStmt => []

def stmtsSelfAttrs : List PyStmt → List String
  | [] => []
  | s :: rest => stmtSelfAttrs s ++ stmtsSelfAttrs rest
end

/-- Line 69: `methods = [n for n in node.body if isinstance(n, ast.FunctionDef)]`. -/
def isFunctionDef : PyStmt → Bool
  | .functionDef _ _ => true
  | _ => false

def classMethods (body : List PyStmt) : List PyStmt :=
  body.filter isFunctionDef

def methodName : PyStmt → String
  | .functionDef nm _ => nm
  | _ => ""

/-- The attribute set of one method: every `self.attr` access anywhere in its
body (`ast.walk(method)` descends into nested functions too). -/
def methodSelfAttrs : PyStmt → List String
  | .functionDef _ b => stmtsSelfAttrs b
  | _ => []

/-! ### The `attributes` mapping (lines 70-77)

`attributes = defaultdict(set)` is subscripted only inside
`attributes[method_name].add(subnode.attr)`, so a method whose body contains
no `self.attr` access never becomes a key.  We mirror that exactly: an
association list keyed by method name, to which a method contributes only when
its collected attribute list is non-empty; a repeated method name merges into
the existing entry (Python dict semantics, insertion order kept). -/

def addAttrs (acc : List (String × List String)) (nm : String) (attrs : List String) :
    List (String × List String) :=
  if attrs.isEmpty then acc
  else if acc.any (fun p => p.1 = nm) then
    acc.map (fun p => if p.1 = nm then (p.1, p.2 ++ attrs) else p)
  else acc ++ [(nm, attrs)]

def buildAttributes (methods : List PyStmt) : List (String × List String) :=
  methods.foldl (fun acc m => addAttrs acc (methodName m) (methodSelfAttrs m)) []

/-- `set_i & set_j` tested for non-emptiness. -/
def sharesAttr (a b : List String) : Bool :=
  a.any (fun x => b.contains x)

/-- The unordered index pairs `i < j` of the double loop, as ordered pairs of
list elements. -/
def listPairs {α : Type} : List α → List (α × α)
  | [] => []
  | x :: xs => xs.map (fun y => (x, y)) ++ listPairs xs

/-- `shared` counter of the LCOM loop; also the `connected` counter of the
TCC loop (both test `set_i & set_j`). -/
def sharedCount (attrs : List (String × List String)) : Nat :=
  (listPairs attrs).countP (fun p => sharesAttr p.1.2 p.2.2)

/-- `no_shared` counter of the LCOM loop. -/
def disjointCount (attrs : List (String × List String)) : Nat :=
  (listPairs attrs).countP (fun p => !sharesAttr p.1.2 p.2.2)

/-- Lines 91-93: `lcom = no_shared - shared; if lcom < 0: lcom = 0`. -/
def lcomOf (attrs : List (String × List String)) : Int :=
  let raw : Int := (disjointCount attrs : Int) - (sharedCount attrs : Int)
  if raw < 0 then 0 else raw

/-- `total` counter of the TCC loop: the number of iterated pairs. -/
def tccTotal (attrs : List (String × List String)) : Nat :=
  (listPairs attrs).length

/-- `⌊q⌋` as a plain computation on the reduced fraction (the denominator is
positive and integer division rounds down). -/
def ratFloor (q : ℚ) : ℤ := q.num / (q.den : ℤ)

/-- Python `round(x, 3)` modelled on exact rationals as round-half-up
(binary floating point resolves exact ties differently; no claim in scope
depends on tie behaviour). -/
def round3 (q : ℚ) : ℚ := (ratFloor (q * 1000 + 1/2) : ℚ) / 1000

/-- Python `round(x, 2)`, same modelling as `round3`. -/
def round2 (q : ℚ) : ℚ := (ratFloor (q * 100 + 1/2) : ℚ) / 100

/-- Line 105: `tcc = round(connected / total, 3) if total > 0 else 1.0`. -/
def tccOf (attrs : List (String × List String)) : ℚ :=
  if tccTotal attrs > 0 then
    round3 ((sharedCount attrs : ℚ) / (tccTotal attrs : ℚ))
  else 1

/-! ### CBO (lines 107-111): every `ast.Name` id in the class subtree other
than the class's own name, as a set. -/

mutual
def exprNames : PyExpr → List String
  | .name i => [i]
  | .attribute v _ => exprNames v
  | .call f args => exprNames f ++ exprsNames args
  | .constant => []

def exprsNames : List PyExpr → List String
  | [] => []
  | e :: es => exprNames e ++ exprsNames es
end

mutual
def stmtNames : PyStmt → List String
  | .functionDef _ b => stmtsNames b
  | .classDef _ b => stmtsNames b
  | .assign t v => exprNames t ++ exprNames v
  | .exprStmt e => exprNames e
  | .ret e => exprNames e
  | .passStmt => []

def stmtsNames : List PyStmt → List String
  | [] => []
  | s :: rest => stmtNames s ++ stmtsNames rest
end

def cboOf (clsName : String) (body : List PyStmt) : Nat :=
  ((stmtsNames body).dedup.filter (fun i => i ≠ clsName)).length

/-- The structural part of one class record (lines 113-121). -/
structure ClassStatic where
  filename : String
  className : String
  loc : Nat
  methods : Nat
  lcom : Int
  tcc : ℚ
  cbo : Nat
deriving Repr

def classStatic (fn clsName : String) (body : List PyStmt) : ClassStatic :=
  let methods := classMethods body
  let attrs := buildAttributes methods
  { filename := fn
    className := clsName
    loc := body.length
    methods := methods.length
    lcom := lcomOf attrs
    tcc := tccOf attrs
    cbo := cboOf clsName body }

/-! All `ClassDef` nodes of a tree with their bodies.  `ast.walk` yields them
in breadth-first order; the claims in scope depend only on which classes are
found, not on emission order, so we traverse in structural pre-order. -/
mutual
def stmtClasses : PyStmt → List (String × List PyStmt)
  | .classDef nm b => (nm, b) :: stmtsClasses b
  | .functionDef _ b => stmtsClasses b
  | .assign _ _ => []
  | .exprStmt _ => []
  | .ret _ => []
  | .passStmt => []

def stmtsClasses : List PyStmt → List (String × List PyStmt)
  | [] => []
  | s :: rest => stmtClasses s ++ stmtsClasses rest
end

/-- `extract_class_metrics` (lines 57-122).  The file read and `ast.parse`
are collaborators, so the function receives the parse outcome: `none` stands
for an `ast.parse` call that raised `SyntaxError` (caught at line 62, the
function returns `[]`); `some tree` is the parsed module body.  `fn` is the
already-computed `os.path.relpath(file_path, repo_path)`. -/
def extractClassMetrics (fn : String) (parsed : Option (List PyStmt)) : List ClassStatic :=
  match parsed with
  | none => []
  | some tree => (stmtsClasses tree).map (fun p => classStatic fn p.1 p.2)

/-! ### History Miner: `get_class_git_stats` (lines 124-163) -/

/-- The statistics dict returned by `get_class_git_stats`. `authors` keeps the
Python set as a duplicate-free list (insertion order); only membership and
cardinality are ever used. -/
structure GitStats where
  changes : Nat
  lines_added : Nat
  lines_deleted : Nat
  authors : List String
  nlc : ℚ
deriving Repr

/-- `set.add`: insert if not already present. -/
def insertUnique (l : List String) (s : String) : List String :=
  if l.contains s then l else l ++ [s]

/-- One iteration of the `for line in log_output.splitlines()` loop
(lines 147-153).  A line starting with `Author:` has its first colon at
index 6, so `line.split(":", 1)[1]` is `line.drop 7`; `.strip()` is `trim`. -/
def gitLogLineStep (st : List String × Nat × Nat) (line : String) :
    List String × Nat × Nat :=
  if line.startsWith "Author:" then
    (insertUnique st.1 ((line.drop 7).trim), st.2.1, st.2.2)
  else if line.startsWith "+" && !line.startsWith "+++" then
    (st.1, st.2.1 + 1, st.2.2)
  else if line.startsWith "-" && !line.startsWith "---" then
    (st.1, st.2.1, st.2.2 + 1)
  else st

/-- Lines 142-163: reduce the raw `git log -L` output text to statistics.
`log_output.count("commit")` is the number of non-overlapping occurrences,
i.e. one less than the number of `splitOn` pieces.  Python `splitlines` is
modelled as splitting on a newline character: the sole difference (no empty
final piece, `\r\n` endings) cannot change any `startsWith` test used here. -/
def parseGitLog (out : String) : GitStats :=
  let changes := (out.splitOn "commit").length - 1
  let st := (out.splitOn "\n").foldl gitLogLineStep ([], 0, 0)
  let lines_added := st.2.1
  let lines_deleted := st.2.2
  { changes := changes
    lines_added := lines_added
    lines_deleted := lines_deleted
    authors := st.1
    nlc :=
      if changes > 0 then
        round2 (((lines_added : ℚ) + (lines_deleted : ℚ)) / (changes : ℚ))
      else 0 }

/-- `get_class_git_stats`: the `subprocess.check_output` call on
`git log -L :class NAME:PATH` is a collaborator, so the function receives its
outcome; `Except.error ()` stands for `subprocess.CalledProcessError` (the
non-zero exit raised for an untracked file, a class the line-history engine
cannot find, or any other failed execution), caught at line 133 and converted
to the zero-valued dict.  The function is total: it never raises. -/
def getClassGitStats (result : Except Unit String) : GitStats :=
  match result with
  | .error _ =>
      { changes := 0, lines_added := 0, lines_deleted := 0, authors := [], nlc := 0 }
  | .ok out => parseGitLog out

/-! ### Dependency Graph Joiner: `compute_fan_in_out` (lines 166-175) -/

/-- The directed multigraph read from the `.dot` file by
`networkx.drawing.nx_pydot.read_dot`.  `nodes` is the node list (distinct in
networkx; not assumed here), `edges` the directed edge list, possibly with
parallel duplicates. -/
structure DotGraph where
  nodes : List String
  edges : List (String × String)

/-- Python `node.strip('"')`: remove every leading and trailing `"`. -/
def stripQuotes (s : String) : String :=
  String.mk (((s.toList.dropWhile (fun c => c = '"')).reverse.dropWhile
    (fun c => c = '"')).reverse)

/-- Python `split('.')` at the character level: every piece kept, empty
pieces included, as `str.split` with an explicit separator does. -/
def splitOnChar (c : Char) : List Char → List (List Char)
  | [] => [[]]
  | x :: xs =>
      match splitOnChar c xs with
      | [] => [[x]]
      | h :: t => if x = c then [] :: h :: t else (x :: h) :: t

/-- Line 171: `clean_name = node.strip('"').split('.')[-1]`.
`split` never returns an empty list, so the `[-1]` indexing cannot fail;
the `getLastD` default is dead. -/
def cleanName (s : String) : String :=
  (((splitOnChar '.' (stripQuotes s).toList).map String.mk).getLastD "")

/-- `len(list(G.predecessors(node)))`: distinct sources of edges into `node`. -/
def fanInOf (g : DotGraph) (node : String) : Nat :=
  ((g.edges.filter (fun e => e.2 = node)).map Prod.fst).dedup.length

/-- `len(list(G.successors(node)))`: distinct targets of edges out of `node`. -/
def fanOutOf (g : DotGraph) (node : String) : Nat :=
  ((g.edges.filter (fun e => e.1 = node)).map Prod.snd).dedup.length

/-- `fan_data[clean_name] = {...}`: Python dict assignment — overwrite the
value when the key exists (keeping its position), append otherwise. -/
def insertFan (acc : List (String × (Nat × Nat))) (k : String) (v : Nat × Nat) :
    List (String × (Nat × Nat)) :=
  if acc.any (fun p => p.1 = k) then
    acc.map (fun p => if p.1 = k then (k, v) else p)
  else acc ++ [(k, v)]

/-- `fan_data.get(key, ...)` lookup over the association list. -/
def fanLookup (l : List (String × (Nat × Nat))) (k : String) : Option (Nat × Nat) :=
  match l with
  | [] => none
  | (k', v) :: rest => if k' = k then some v else fanLookup rest k

/-- `compute_fan_in_out`: one pass over the nodes, keyed by normalized name;
two nodes normalizing to the same bare name collide, the later overwriting the
earlier (the known aliasing limitation). -/
def computeFanInOut (g : DotGraph) : List (String × (Nat × Nat)) :=
  g.nodes.foldl
    (fun acc node => insertFan acc (cleanName node) (fanInOf g node, fanOutOf g node))
    []

/-! ### Report rows: `export_to_csv` (lines 177-203) -/

/-- One CSV row, fields in the order of line 179; `authors` is the set's
cardinality (line 199). -/
structure CsvRow where
  cls : String
  filename : String
  loc : Nat
  methods : Nat
  lcom : Int
  tcc : ℚ
  cbo : Nat
  changes : Nat
  lines_added : Nat
  lines_deleted : Nat
  nlc : ℚ
  authors : Nat
  fan_in : Nat
  fan_out : Nat
deriving Repr

/-- Lines 184-202: one exported row.  `cls.update(stats)` merged the
structural dict and the git dict, modelled as the pair.
`fan_data.get(r["class"], {}).get("fan_in", 0)` is a lookup by the record's
class name defaulting to 0. -/
def csvRow (r : ClassStatic × GitStats) (fanData : List (String × (Nat × Nat))) : CsvRow :=
  { cls := r.1.className
    filename := r.1.filename
    loc := r.1.loc
    methods := r.1.methods
    lcom := r.1.lcom
    tcc := r.1.tcc
    cbo := r.1.cbo
    changes := r.2.changes
    lines_added := r.2.lines_added
    lines_deleted := r.2.lines_deleted
    nlc := r.2.nlc
    authors := r.2.authors.length
    fan_in := ((fanLookup fanData r.1.className).map Prod.fst).getD 0
    fan_out := ((fanLookup fanData r.1.className).map Prod.snd).getD 0 }

/-! ### `main` (lines 209-244) -/

/-- The external collaborators `main` consults, abstracted as one record:
`pyFiles repo` is `get_py_files(repo)`; `relpath fp repo` is
`os.path.relpath(fp, repo)`; `parse fp` is the outcome of reading and
`ast.parse`-ing the file; `git fp cls` is the outcome of the
`git log -L :class cls:...` invocation; `dotGraph f` is the graph read from
the `.dot` file named `f` (pyreverse and the dot parse modelled as
succeeding — per the spec their failure is fatal and unhandled). -/
structure World where
  pyFiles : String → List String
  relpath : String → String → String
  parse : String → Option (List PyStmt)
  git : String → String → Except Unit String
  dotGraph : String → DotGraph

/-- Lines 218-226: extraction over every discovered file, each class record
paired with its git statistics (`cls.update(stats)`), in order. -/
def pipelineResults (w : World) (repo : String) : List (ClassStatic × GitStats) :=
  (w.pyFiles repo).flatMap (fun fp =>
    (extractClassMetrics (w.relpath fp repo) (w.parse fp)).map (fun c =>
      (c, getClassGitStats (w.git fp c.className))))

/-- Lines 228-231: the dot file name is the repo path with `/` replaced by
`_`, wrapped `classes_*.dot`, and the graph found there is reduced to the
fan table. -/
def fanDataOf (w : World) (repo : String) : List (String × (Nat × Nat)) :=
  computeFanInOut (w.dotGraph ("classes_" ++ repo.replace "/" "_" ++ ".dot"))

/-- Line 215's message. -/
def usageMsg : String :=
  "Usage: python class_metrics_v5.py repo_path output_filename(with no extension)"

/-- How a run of `main` ends.
`usageExit msg code`: the usage branch printed `msg` and called `sys.exit()`;
`code` is the resulting process exit status (`sys.exit()` with no argument
exits with status 0).
`nameErrorAtExport results fanData`: every prior step ran to completion
(extraction, history mining, pyreverse, fan computation, console printing) and
line 244 then raised an unbound-name error because `OUTPUT_FILE` was never
assigned.
`ok rows outFile`: the rows written to `outFile`. -/
inductive MainResult where
  | usageExit (msg : String) (code : Nat)
  | nameErrorAtExport (results : List (ClassStatic × GitStats))
      (fanData : List (String × (Nat × Nat)))
  | ok (rows : List CsvRow) (outFile : String)

/-- Lines 209-244.  `sys.argv` is `argv` (element 0 the program name).
`OUTPUT_FILE` is assigned only under `len(sys.argv) > 2`; with exactly one
argument the whole pipeline runs and the run dies at the `export_to_csv`
call's argument `OUTPUT_FILE + ".csv"`. -/
def mainRun (argv : List String) (w : World) : MainResult :=
  match argv with
  | _ :: repo :: rest =>
      let results := pipelineResults w repo
      let fanData := fanDataOf w repo
      match rest with
      | out :: _ => .ok (results.map (fun r => csvRow r fanData)) (out ++ ".csv")
      | [] => .nameErrorAtExport results fanData
  | _ => .usageExit usageMsg 0

/-- The process exit status when `mainRun` ended through the usage branch. -/
def usageExitCode : MainResult → Option Nat
  | .usageExit _ c => some c
  | _ => none

/-! ## Theorems settling the claims -/

/-- Bridge between the computational `ratFloor` and Mathlib's `Int.floor`. -/
theorem ratFloor_eq_floor (q : ℚ) : ratFloor q = Int.floor q := by
  rw [Rat.floor_def]; rfl

/-- Spec-side definition, for comparison with `buildAttributes`: the spec says
"Methods that access no instance attributes get an empty set (not absent)",
so here every enumerated method contributes an entry, with an empty attribute
list when its body has no `self.attr` access. -/
def specAttributeMap (methods : List PyStmt) : List (String × List String) :=
  methods.map (fun m => (methodName m, methodSelfAttrs m))

/-- A class with two methods, `reader` reading `self.x` and `helper` touching
no instance attribute: the failing input of claims C1/C3/C4. -/
def c1ClassBody : List PyStmt :=
  [ .functionDef "reader" [.ret (.attribute (.name "self") "x")],
    .functionDef "helper" [.passStmt] ]

/-- C1: the claim says the LCOM/TCC pair enumeration ranges over all
unordered pairs of the class's methods, attribute-less methods contributing an
empty set, giving the TCC denominator n·(n-1)/2 for n methods.  The code
violates this: `attributes[name]` is subscripted only when a `self.attr`
access is found, so an attribute-less method is absent from the map and the
pair loops skip it.  On a class with 2 methods where one accesses nothing,
the code's pair count (TCC denominator) is 0 — not 2·(2-1)/2 = 1, the value
the claimed (and spec-side) enumeration yields — and TCC falls into the
`total = 0` branch, returning 1.0. -/
theorem tcc_pairs_skip_attributeless_methods :
    (classStatic "example.py" "Sample" c1ClassBody).methods = 2 ∧
    tccTotal (buildAttributes (classMethods c1ClassBody)) = 0 ∧
    tccTotal (specAttributeMap (classMethods c1ClassBody)) = 2 * (2 - 1) / 2 ∧
    (classStatic "example.py" "Sample" c1ClassBody).tcc = 1 :=
  ⟨rfl, rfl, rfl, rfl⟩

def c3Reader : PyStmt := .functionDef "get_x" [.ret (.attribute (.name "self") "x")]
def c3Helper : PyStmt := .functionDef "helper" [.passStmt]
def c3ClassBody : List PyStmt := [c3Reader, c3Helper]

/-- Two methods with non-empty, disjoint attribute sets. -/
def c3ContrastBody : List PyStmt :=
  [ .functionDef "m1" [.exprStmt (.attribute (.name "self") "a")],
    .functionDef "m2" [.exprStmt (.attribute (.name "self") "b")] ]

/-- C3: the claim says TCC = 0.0 for a class with exactly 2 methods sharing
no attribute.  The code violates this when one of the two methods accesses no
instance attribute: that method is missing from the `attributes` map, the
pair loop runs over one key, `total = 0`, and TCC is 1.0.  The contrast
conjunct shows the 0.0 case does hold when both methods access attributes. -/
theorem tcc_one_for_disjoint_pair_with_attributeless_method :
    (classStatic "example.py" "Sample3" c3ClassBody).methods = 2 ∧
    sharesAttr (methodSelfAttrs c3Reader) (methodSelfAttrs c3Helper) = false ∧
    (classStatic "example.py" "Sample3" c3ClassBody).tcc = 1 ∧
    (classStatic "example.py" "Contrast" c3ContrastBody).tcc = 0 := by
  refine ⟨rfl, rfl, rfl, ?_⟩
  show tccOf (buildAttributes (classMethods c3ContrastBody)) = 0
  rw [tccOf]
  rw [show tccTotal (buildAttributes (classMethods c3ContrastBody)) = 1 from rfl]
  rw [show sharedCount (buildAttributes (classMethods c3ContrastBody)) = 0 from rfl]
  norm_num [round3, ratFloor_eq_floor]

/-- A class with two methods, `writer` assigning `self.a` and `helper`
touching no instance attribute. -/
def c4ClassBody : List PyStmt :=
  [ .functionDef "writer" [.assign (.attribute (.name "self") "a") .constant],
    .functionDef "helper" [.passStmt] ]

/-- C4: the claim says LCOM = disjoint − shared over all unordered method
pairs, floored at 0.  On a class with 2 methods where one accesses no
instance attribute, the pair `(writer, helper)` has disjoint attribute sets
(`helper`'s being empty), so the claimed formula gives 1 − 0 = 1 — as the
spec-side map confirms — but the code computes 0, because `helper` is absent
from the `attributes` map and no pair is enumerated at all. -/
theorem lcom_skips_attributeless_methods :
    (classStatic "example.py" "Sample4" c4ClassBody).methods = 2 ∧
    (classStatic "example.py" "Sample4" c4ClassBody).lcom = 0 ∧
    lcomOf (specAttributeMap (classMethods c4ClassBody)) = 1 :=
  ⟨rfl, rfl, rfl⟩

/-- A world whose collaborators see an empty repository. -/
def trivialWorld : World :=
  { pyFiles := fun _ => []
    relpath := fun fp _ => fp
    parse := fun _ => none
    git := fun _ _ => .error ()
    dotGraph := fun _ => { nodes := [], edges := [] } }

/-- C2 counterexample: with the repository-path argument missing, the program
does print the usage message and stop at once, but `sys.exit()` is called
with no argument, so the process exit status is 0 — not the non-zero status
the claim asserts. -/
theorem usage_exit_status_is_zero :
    mainRun ["prog"] trivialWorld = MainResult.usageExit usageMsg 0 ∧
    usageExitCode (mainRun ["prog"] trivialWorld) = some 0 :=
  ⟨rfl, rfl⟩

/-- C2 (amended): when the required first command-line argument is missing,
the program terminates immediately with the usage message and exit status 0
(`sys.exit()` with no argument), and no partial processing occurs — the
result carries nothing from the extraction, mining or graph stages. -/
theorem usage_error_exits_immediately (argv : List String) (w : World)
    (h : argv.length ≤ 1) : mainRun argv w = MainResult.usageExit usageMsg 0 := by
  match argv with
  | [] => rfl
  | [_] => rfl
  | _ :: _ :: rest => simp [List.length_cons] at h

/-- C2 witness: the amended theorem applied to an argument vector holding
only the program name. -/
theorem usage_error_exits_immediately_witness :
    (["prog"] : List String).length ≤ 1 ∧
    mainRun ["prog"] trivialWorld = MainResult.usageExit usageMsg 0 :=
  ⟨by decide, usage_error_exits_immediately ["prog"] trivialWorld (by decide)⟩

/-- C5: when the history query fails (`subprocess.CalledProcessError` from an
untracked file, a class the line-history engine cannot find, or a failed
execution), `get_class_git_stats` returns exactly changes 0, lines added 0,
lines deleted 0, empty author set, NLC 0.  The embedded function is total:
the error is consumed here and nothing propagates to the caller. -/
theorem git_failure_yields_zero_stats :
    getClassGitStats (Except.error ()) =
      { changes := 0, lines_added := 0, lines_deleted := 0, authors := [], nlc := 0 } :=
  rfl

/-- C6: for every outcome of the git invocation — any output text, or a
failure — the NLC field equals round((lines_added + lines_deleted) /
changes, 2) when the change count is positive, and 0 when it is 0. -/
theorem nlc_is_churn_per_change (r : Except Unit String) :
    (getClassGitStats r).nlc =
      if (getClassGitStats r).changes > 0 then
        round2 ((((getClassGitStats r).lines_added : ℚ) +
            ((getClassGitStats r).lines_deleted : ℚ)) / ((getClassGitStats r).changes : ℚ))
      else 0 := by
  cases r <;> rfl

/-- C9: a file whose contents fail to parse (the `SyntaxError` branch)
contributes an empty list of class records; the embedded extractor is total,
so no error reaches the caller. -/
theorem parse_failure_yields_no_records (fn : String) :
    extractClassMetrics fn none = [] := rfl

/-- C8: the method count of a class record is exactly the number of direct
`FunctionDef` statements in the class's immediate body: prepending a function
definition raises it by one regardless of what that function's own body
contains (so functions nested inside methods are not counted), while
prepending a nested class — whatever its body holds — or a non-function
statement leaves it unchanged. -/
theorem methods_are_direct_function_defs (fn cn : String) (body : List PyStmt) :
    (classStatic fn cn body).methods = (body.filter isFunctionDef).length ∧
    (∀ nm inner, (classStatic fn cn (PyStmt.functionDef nm inner :: body)).methods
        = (classStatic fn cn body).methods + 1) ∧
    (∀ nm2 b2, (classStatic fn cn (PyStmt.classDef nm2 b2 :: body)).methods
        = (classStatic fn cn body).methods) ∧
    (∀ e, (classStatic fn cn (PyStmt.exprStmt e :: body)).methods
        = (classStatic fn cn body).methods) := by
  refine ⟨rfl, ?_, ?_, ?_⟩
  · intro nm inner
    show (classMethods (PyStmt.functionDef nm inner :: body)).length = _
    simp [classMethods, List.filter, isFunctionDef]
    rfl
  · intro nm2 b2
    show (classMethods (PyStmt.classDef nm2 b2 :: body)).length = _
    simp [classMethods, List.filter, isFunctionDef]
    rfl
  · intro e
    show (classMethods (PyStmt.exprStmt e :: body)).length = _
    simp [classMethods, List.filter, isFunctionDef]
    rfl

/-- C10: with exactly one argument (the repository path) and no output name,
the run is not cut short: the full extraction/mining pipeline and the
fan-in/fan-out computation complete, and the run then ends in the
unbound-`OUTPUT_FILE` name error at the CSV-export call — it is neither the
usage exit nor a successful export. -/
theorem single_arg_runs_pipeline_then_name_error (w : World) (a0 a1 : String) :
    mainRun [a0, a1] w =
      MainResult.nameErrorAtExport (pipelineResults w a1) (fanDataOf w a1) ∧
    (∀ msg c, mainRun [a0, a1] w ≠ MainResult.usageExit msg c) ∧
    (∀ rows f, mainRun [a0, a1] w ≠ MainResult.ok rows f) := by
  refine ⟨rfl, ?_, ?_⟩ <;> intro x y h <;> simp [mainRun] at h

/-! ### C7: fan-in/fan-out lookup -/

theorem fanLookup_ne_none_of_any (acc : List (String × (Nat × Nat))) (k : String)
    (h : acc.any (fun p => p.1 = k) = true) : fanLookup acc k ≠ none := by
  induction acc with
  | nil => simp at h
  | cons a rest ih =>
      rw [fanLookup]
      by_cases hk : a.1 = k
      · simp [hk]
      · simp only [List.any_cons, Bool.or_eq_true, decide_eq_true_eq] at h
        rcases h with h | h
        · exact absurd h hk
        · simp [hk, ih h]

theorem fanLookup_replace_none (acc : List (String × (Nat × Nat))) (k' : String)
    (v : Nat × Nat) (k : String) :
    (fanLookup (acc.map (fun p => if p.1 = k' then (k', v) else p)) k = none) ↔
      fanLookup acc k = none := by
  induction acc with
  | nil => simp [fanLookup]
  | cons a rest ih =>
      by_cases ha : a.1 = k'
      · simp only [List.map_cons, ha, if_pos]
        rw [fanLookup, fanLookup]
        by_cases hk : k' = k
        · simp [hk, ha ▸ hk, ha]
        · simp [hk, ha ▸ hk, ih]
      · simp only [List.map_cons, ha, if_neg, ite_false]
        rw [fanLookup, fanLookup]
        by_cases hk : a.1 = k
        · simp [hk]
        · simp [hk, ih]

theorem fanLookup_append_single_none (acc : List (String × (Nat × Nat))) (k' : String)
    (v : Nat × Nat) (k : String) :
    (fanLookup (acc ++ [(k', v)]) k = none) ↔ (fanLookup acc k = none ∧ k ≠ k') := by
  induction acc with
  | nil =>
      simp only [List.nil_append, fanLookup]
      by_cases hk : k' = k
      · simp [hk]
      · simp [hk, Ne.symm hk]
  | cons a rest ih =>
      rw [List.cons_append, fanLookup, fanLookup]
      by_cases hk : a.1 = k
      · simp [hk]
      · simp [hk, ih]

theorem fanLookup_insertFan_none (acc : List (String × (Nat × Nat))) (k' : String)
    (v : Nat × Nat) (k : String) :
    (fanLookup (insertFan acc k' v) k = none) ↔ (fanLookup acc k = none ∧ k ≠ k') := by
  rw [insertFan]
  by_cases hany : acc.any (fun p => p.1 = k') = true
  · rw [if_pos hany, fanLookup_replace_none]
    constructor
    · intro h
      refine ⟨h, fun hkk => ?_⟩
      exact fanLookup_ne_none_of_any acc k' (by simpa using hany) (hkk ▸ h)
    · exact fun h => h.1
  · rw [if_neg hany, fanLookup_append_single_none]

theorem fanLookup_fanFold_none (g : DotGraph) (nodes : List String)
    (acc : List (String × (Nat × Nat))) (k : String) :
    (fanLookup
        (nodes.foldl
          (fun acc node => insertFan acc (cleanName node) (fanInOf g node, fanOutOf g node))
          acc) k = none) ↔
      (fanLookup acc k = none ∧ ∀ n ∈ nodes, k ≠ cleanName n) := by
  induction nodes generalizing acc with
  | nil => simp
  | cons n ns ih =>
      rw [List.foldl_cons, ih, fanLookup_insertFan_none]
      constructor
      · rintro ⟨⟨h1, h2⟩, h3⟩
        exact ⟨h1, by simpa [h2] using h3⟩
      · rintro ⟨h1, h2⟩
        simp only [List.mem_cons, forall_eq_or_imp] at h2
        exact ⟨⟨h1, h2.1⟩, h2.2⟩

/-- The key set of the fan table is exactly the set of normalized
(quote-stripped, last dot-segment) node names. -/
theorem fanLookup_computeFanInOut_none (g : DotGraph) (k : String) :
    (fanLookup (computeFanInOut g) k = none) ↔ k ∉ g.nodes.map cleanName := by
  rw [computeFanInOut, fanLookup_fanFold_none]
  simp [fanLookup, List.mem_map]
  constructor
  · intro h n hn he
    exact h n hn he.symm
  · intro h n hn he
    exact h n hn he.symm

/-- C7: the fan table is keyed exactly by the normalized node names
(quoting stripped, last dot-separated segment kept), and a class record whose
name is absent from those normalized names receives fan_in = 0 and
fan_out = 0 in its exported row. -/
theorem fan_defaults_to_zero_when_absent (g : DotGraph) (s : ClassStatic) (t : GitStats)
    (h : s.className ∉ g.nodes.map cleanName) :
    (csvRow (s, t) (computeFanInOut g)).fan_in = 0 ∧
    (csvRow (s, t) (computeFanInOut g)).fan_out = 0 ∧
    (∀ k : String, fanLookup (computeFanInOut g) k ≠ none ↔ k ∈ g.nodes.map cleanName) := by
  have h0 : fanLookup (computeFanInOut g) s.className = none :=
    (fanLookup_computeFanInOut_none g s.className).mpr h
  refine ⟨?_, ?_, ?_⟩
  · show ((fanLookup (computeFanInOut g) s.className).map Prod.fst).getD 0 = 0
    rw [h0]; rfl
  · show ((fanLookup (computeFanInOut g) s.className).map Prod.snd).getD 0 = 0
    rw [h0]; rfl
  · intro k
    rw [ne_eq, fanLookup_computeFanInOut_none, not_not]

/-- A small graph with a fully qualified quoted node name. -/
def demoGraph : DotGraph :=
  { nodes := ["\"pkg.mod.Foo\"", "Baz"]
    edges := [("\"pkg.mod.Foo\"", "Baz")] }

def demoStatic : ClassStatic :=
  { filename := "demo.py", className := "Bar", loc := 0, methods := 0,
    lcom := 0, tcc := 1, cbo := 0 }

def demoGit : GitStats :=
  { changes := 0, lines_added := 0, lines_deleted := 0, authors := [], nlc := 0 }

/-- C7 witness: class `Bar` is absent from a graph whose normalized node
names are `Foo` and `Baz`, so its row carries fan_in = fan_out = 0. -/
theorem fan_defaults_to_zero_when_absent_witness :
    (demoStatic.className ∉ demoGraph.nodes.map cleanName) ∧
    ((csvRow (demoStatic, demoGit) (computeFanInOut demoGraph)).fan_in = 0 ∧
     (csvRow (demoStatic, demoGit) (computeFanInOut demoGraph)).fan_out = 0 ∧
     (∀ k : String, fanLookup (computeFanInOut demoGraph) k ≠ none ↔
        k ∈ demoGraph.nodes.map cleanName)) :=
  ⟨by decide, fan_defaults_to_zero_when_absent demoGraph demoStatic demoGit (by decide)⟩
